import Mathlib

/-!
# Verification of the sophia_rs term model and RIO ingestion pipeline

Shallow embedding of `src/term/src/lib.rs` (the `Term` data model) and
`src/sophia/src/parser/rio_common.rs` (the `RioSource` adapter).

Ownership strategies (`TermData` in Rust: `AsRef<str> + Clone + Eq + Hash`)
are embedded as arbitrary Lean types `α` together with an explicit view
function `va : α → String` standing for `AsRef<str>`; the concrete
strategies (`&str`, `Box<str>`, `Rc<str>`, …) differ only in memory
management, which is invisible to the term semantics.

The validation grammars (RFC3987 IRI, BCP47 language tag, variable-name
grammar) are black-box contracts per the spec (§6); they are embedded as
predicate parameters `validIri`, `validLang`, `validVar`, `absIri`.
-/

namespace Sophia

/-- Construction-time error kinds of the term crate.
Modelled from the spec: `src/term/src/_error.rs` is missing from the
sources; §7 names the kinds `MalformedIri`, `MalformedLangTag`,
`MalformedVariableName`. -/
inductive TermError : Type
  | malformedIri (txt : String)
  | malformedLangTag (tag : String)
  | malformedVariableName (name : String)
  deriving DecidableEq, Repr

/-- IRI payload: optional namespace/suffix split plus the tracked
absolute-vs-relative flag.
Modelled from the spec: `src/term/src/iri.rs` is missing from the sources;
§2 and §3 describe an identifier "optionally split into a namespace prefix
and a suffix" that "tracks absolute-vs-relative validity". -/
structure Iri (α : Type) : Type where
  ns : α
  suffix : Option α
  absolute : Bool
  deriving DecidableEq, Repr

/-- Blank-node payload: an opaque local id.
Modelled from the spec: `src/term/src/blank_node.rs` is missing from the
sources; §3 describes "local id text". -/
structure BlankNode (α : Type) : Type where
  id : α
  deriving DecidableEq, Repr

/-- Variable payload: a name.
Modelled from the spec: `src/term/src/variable.rs` is missing from the
sources; §3 describes "name text". -/
structure Variable (α : Type) : Type where
  name : α
  deriving DecidableEq, Repr

/-- The literal's second component: a datatype identifier or a language tag.
Modelled from the spec: `src/term/src/literal.rs` is missing from the
sources; §3 describes "value text + (datatype identifier | language tag |
none)", the none case defaulting to the string datatype at construction. -/
inductive LiteralKind (α : Type) : Type
  | dt (datatype : Iri α)
  | lang (tag : α)
  deriving DecidableEq, Repr

/-- Literal payload.
Modelled from the spec: `src/term/src/literal.rs` is missing from the
sources. -/
structure Literal (α : Type) : Type where
  txt : α
  kind : LiteralKind α
  deriving DecidableEq, Repr

/-- `Term<TD>` from `src/term/src/lib.rs`: the closed union of the four
node kinds (`Iri`, `BNode`, `Literal`, `Variable`). -/
inductive Term (α : Type) : Type
  | iri (i : Iri α)
  | bnode (b : BlankNode α)
  | literal (l : Literal α)
  | var (v : Variable α)
  deriving DecidableEq, Repr

/-- The four variant tags of `Term`. -/
inductive TermVariant : Type
  | iri
  | bnode
  | literal
  | var
  deriving DecidableEq, Repr

/-- Active variant of a term. -/
def Term.variant : Term α → TermVariant
  | .iri _ => .iri
  | .bnode _ => .bnode
  | .literal _ => .literal
  | .var _ => .var

/-- Resolved full text of an IRI: concatenation of namespace and suffix
(spec §4.4: "Identifier compares resolved full text regardless of split"). -/
def Iri.resolved (va : α → String) (i : Iri α) : String :=
  va i.ns ++ (match i.suffix with | some s => va s | none => "")

/-- Cross-strategy IRI equality.
Modelled from the spec: `src/term/src/iri.rs` is missing from the sources;
§4.4 says IRIs compare by "resolved full text regardless of split". -/
def Iri.beq (va : α → String) (vb : β → String) (i1 : Iri α) (i2 : Iri β) : Bool :=
  Iri.resolved va i1 == Iri.resolved vb i2

/-- Cross-strategy blank-node equality (id text).
Modelled from the spec: §4.4 "BlankNode and Variable compare id/name text". -/
def BlankNode.beq (va : α → String) (vb : β → String)
    (b1 : BlankNode α) (b2 : BlankNode β) : Bool :=
  va b1.id == vb b2.id

/-- Cross-strategy variable equality (name text).
Modelled from the spec: §4.4 "BlankNode and Variable compare id/name text". -/
def Variable.beq (va : α → String) (vb : β → String)
    (v1 : Variable α) (v2 : Variable β) : Bool :=
  va v1.name == vb v2.name

/-- Cross-strategy literal equality.
Modelled from the spec: `src/term/src/literal.rs` is missing from the
sources; §4.4 "Literal compares value plus resolved datatype/language". -/
def Literal.beq (va : α → String) (vb : β → String)
    (l1 : Literal α) (l2 : Literal β) : Bool :=
  (va l1.txt == vb l2.txt) &&
    (match l1.kind, l2.kind with
      | .dt d1, .dt d2 => Iri.beq va vb d1 d2
      | .lang t1, .lang t2 => va t1 == vb t2
      | _, _ => false)

/-- `impl PartialEq<Term<U>> for Term<T>` (src/term/src/lib.rs:419-435):
same variant and equal payload, else `false`. -/
def Term.beq (va : α → String) (vb : β → String) : Term α → Term β → Bool
  | .iri i1, .iri i2 => Iri.beq va vb i1 i2
  | .bnode b1, .bnode b2 => BlankNode.beq va vb b1 b2
  | .literal l1, .literal l2 => Literal.beq va vb l1 l2
  | .var v1, .var v2 => Variable.beq va vb v1 v2
  | _, _ => false

/-- `impl PartialEq<Iri<U>> for Term<T>` (src/term/src/lib.rs:437-448). -/
def Term.beqIri (va : α → String) (vb : β → String) (t : Term α) (other : Iri β) : Bool :=
  match t with
  | .iri i => Iri.beq va vb i other
  | _ => false

/-- `impl PartialEq<Literal<U>> for Term<T>` (src/term/src/lib.rs:450-461). -/
def Term.beqLiteral (va : α → String) (vb : β → String) (t : Term α) (other : Literal β) : Bool :=
  match t with
  | .literal l => Literal.beq va vb l other
  | _ => false

/-- `impl PartialEq<BlankNode<U>> for Term<T>` (src/term/src/lib.rs:463-474). -/
def Term.beqBNode (va : α → String) (vb : β → String) (t : Term α) (other : BlankNode β) : Bool :=
  match t with
  | .bnode b => BlankNode.beq va vb b other
  | _ => false

/-- `impl PartialEq<Variable<U>> for Term<T>` (src/term/src/lib.rs:476-487). -/
def Term.beqVariable (va : α → String) (vb : β → String) (t : Term α) (other : Variable β) : Bool :=
  match t with
  | .var v => Variable.beq va vb v other
  | _ => false

/-- Resolved content of a literal's second component. -/
inductive LitContentKind : Type
  | dt (s : String)
  | lang (s : String)
  deriving DecidableEq, Repr

/-- The resolved text content of a term: its variant together with every
payload component resolved to plain text. Two terms of possibly different
ownership strategies have the same `content` iff they are structurally
equal as resolved text. -/
inductive TermContent : Type
  | iri (s : String)
  | bnode (s : String)
  | literal (v : String) (k : LitContentKind)
  | var (s : String)
  deriving DecidableEq, Repr

/-- Resolved text content of a term. -/
def Term.content (va : α → String) : Term α → TermContent
  | .iri i => .iri (Iri.resolved va i)
  | .bnode b => .bnode (va b.id)
  | .literal l =>
      .literal (va l.txt)
        (match l.kind with
          | .dt d => .dt (Iri.resolved va d)
          | .lang t => .lang (va t))
  | .var v => .var (va v.name)

/-- Variant encoded by a content value. -/
def TermContent.variant : TermContent → TermVariant
  | .iri _ => .iri
  | .bnode _ => .bnode
  | .literal _ _ => .literal
  | .var _ => .var

theorem content_variant (va : α → String) (t : Term α) :
    (Term.content va t).variant = t.variant := by
  cases t with
  | iri i => rfl
  | bnode b => rfl
  | literal l => rfl
  | var v => rfl

/-- Term equality is exactly equality of resolved text contents. -/
theorem beq_iff_content (va : α → String) (vb : β → String) (t1 : Term α) (t2 : Term β) :
    Term.beq va vb t1 t2 = true ↔ Term.content va t1 = Term.content vb t2 := by
  cases t1 with
  | iri i1 =>
    cases t2 <;>
      simp [Term.beq, Term.content, Iri.beq, beq_iff_eq]
  | bnode b1 =>
    cases t2 <;>
      simp [Term.beq, Term.content, BlankNode.beq, beq_iff_eq]
  | literal l1 =>
    cases t2 with
    | iri i2 => simp [Term.beq, Term.content]
    | bnode b2 => simp [Term.beq, Term.content]
    | var v2 => simp [Term.beq, Term.content]
    | literal l2 =>
      cases h1 : l1.kind <;> cases h2 : l2.kind <;>
        simp [Term.beq, Term.content, Literal.beq, Iri.beq, h1, h2, beq_iff_eq]
  | var v1 =>
    cases t2 <;>
      simp [Term.beq, Term.content, Variable.beq, beq_iff_eq]

/-! ## Structural transformation (src/term/src/lib.rs:209-283)

Payload-level `map`/`as_ref`/`clone_map` live in the missing submodules;
modelled from the spec (§4.2): they "apply a payload-conversion function to
every text span of a term, preserving variant and internal splits". -/

/-- `Iri::map`: apply `f` to every text span, keeping split and flag. -/
def Iri.map (f : α → β) (i : Iri α) : Iri β :=
  ⟨f i.ns, i.suffix.map f, i.absolute⟩

/-- `BlankNode::map`. -/
def BlankNode.map (f : α → β) (b : BlankNode α) : BlankNode β :=
  ⟨f b.id⟩

/-- `Variable::map`. -/
def Variable.map (f : α → β) (v : Variable α) : Variable β :=
  ⟨f v.name⟩

/-- `Literal::map`: maps the value and the datatype/language component. -/
def Literal.map (f : α → β) (l : Literal α) : Literal β :=
  ⟨f l.txt,
    match l.kind with
    | .dt d => .dt (Iri.map f d)
    | .lang t => .lang (f t)⟩

/-- `Term::map` (src/term/src/lib.rs:234-247): dispatch on the variant,
delegating to the payload's `map`. -/
def Term.map (f : α → β) : Term α → Term β
  | .iri i => .iri (Iri.map f i)
  | .literal l => .literal (Literal.map f l)
  | .bnode b => .bnode (BlankNode.map f b)
  | .var v => .var (Variable.map f v)

/-- `Term::map_into` (src/term/src/lib.rs:250-256): `map` with the `Into`
conversion, embedded as an explicit conversion function. -/
def Term.map_into (conv : α → β) (t : Term α) : Term β :=
  Term.map conv t

/-- `Term::clone_map` (src/term/src/lib.rs:262-275): clone while converting
through a factory applied to the borrowed `str` view of each span. -/
def Term.clone_map (va : α → String) (factory : String → β) (t : Term α) : Term β :=
  Term.map (fun a => factory (va a)) t

/-- `Term::clone_into` (src/term/src/lib.rs:278-283): `clone_map` with the
`Into` conversion from `&str`. -/
def Term.clone_into (va : α → String) (conv : String → β) (t : Term α) : Term β :=
  Term.clone_map va conv t

/-- `Term::as_ref` (src/term/src/lib.rs:210-219): borrow the payloads.
A borrow views the same text, so in the embedding the payload data is
unchanged. -/
def Term.as_ref (t : Term α) : Term α :=
  match t with
  | .iri i => .iri i
  | .literal l => .literal l
  | .bnode b => .bnode b
  | .var v => .var v

/-- `Term::as_ref_str` (src/term/src/lib.rs:222-231): borrow the payloads
as `&str`, i.e. resolve each span through the `AsRef<str>` view. -/
def Term.as_ref_str (va : α → String) (t : Term α) : Term String :=
  match t with
  | .iri i => .iri (Iri.map va i)
  | .literal l => .literal (Literal.map va l)
  | .bnode b => .bnode (BlankNode.map va b)
  | .var v => .var (Variable.map va v)

/-! ## Validity

The grammars are black-box contracts (spec §6); validity of a term is
validity of its resolved text under the relevant grammar (spec §3
invariants table). -/

/-- Validity of a content value under the four grammars:
IRI text valid (relative or absolute), blank-node id valid, literal
datatype a valid IRI or language tag valid BCP47, variable name valid. -/
def TermContent.valid (validIri validLang validBnode validVar : String → Bool) :
    TermContent → Bool
  | .iri s => validIri s
  | .bnode s => validBnode s
  | .literal _ (.dt s) => validIri s
  | .literal _ (.lang s) => validLang s
  | .var s => validVar s

/-- Validity of a term: validity of its resolved text content. -/
def Term.valid (va : α → String) (validIri validLang validBnode validVar : String → Bool)
    (t : Term α) : Bool :=
  TermContent.valid validIri validLang validBnode validVar (Term.content va t)

/-- `map` with a text-preserving conversion preserves resolved content.
Ownership-strategy conversions preserve the text view (spec §4.2: they
"cannot change text content"). -/
theorem content_map (va : α → String) (vb : β → String) (f : α → β)
    (hf : ∀ a, vb (f a) = va a) (t : Term α) :
    Term.content vb (Term.map f t) = Term.content va t := by
  cases t with
  | iri i =>
    simp [Term.map, Term.content, Iri.map, Iri.resolved, hf]
    cases i.suffix <;> simp [hf]
  | bnode b => simp [Term.map, Term.content, BlankNode.map, hf]
  | literal l =>
    cases h : l.kind with
    | dt d =>
      simp [Term.map, Term.content, Literal.map, h, Iri.map, Iri.resolved, hf]
      cases d.suffix <;> simp [hf]
    | lang tg => simp [Term.map, Term.content, Literal.map, h, hf]
  | var v => simp [Term.map, Term.content, Variable.map, hf]

theorem variant_map (f : α → β) (t : Term α) :
    (Term.map f t).variant = t.variant := by
  cases t <;> rfl

theorem as_ref_str_eq_map (va : α → String) (t : Term α) :
    Term.as_ref_str va t = Term.map va t := by
  cases t <;> rfl

/-! ## Checked constructors (src/term/src/lib.rs:138-207)

Payload-level constructors live in the missing submodules and are
modelled from the spec (§4.1). Constructors are stated at the `String`
strategy (`RefTerm`), the instantiation the ingestion pipeline uses;
the `From<U>` conversions of the Rust signatures are identities there. -/

/-- `Iri::new`.
Modelled from the spec: `src/term/src/iri.rs` is missing from the sources;
§4.1 "Checked identifier construction fails with `MalformedIri` if the
text is not a syntactically valid (relative or absolute) resource
identifier"; §3 says the absolute-vs-relative validity is tracked. -/
def Iri.new (validIri absIri : String → Bool) (iri : String) :
    Except TermError (Iri String) :=
  if validIri iri then .ok ⟨iri, none, absIri iri⟩
  else .error (.malformedIri iri)

/-- `Iri::new_suffixed`.
Modelled from the spec: §4.1 "Checked identifier-with-suffix construction
fails the same way, validating the concatenation of namespace and suffix,
not each part independently." -/
def Iri.new_suffixed (validIri absIri : String → Bool) (ns suffix : String) :
    Except TermError (Iri String) :=
  if validIri (ns ++ suffix) then .ok ⟨ns, some suffix, absIri (ns ++ suffix)⟩
  else .error (.malformedIri (ns ++ suffix))

/-- `BlankNode::new`.
Modelled from the spec: `src/term/src/blank_node.rs` is missing from the
sources; §4.1 "Checked blank-node construction currently never fails on
content (any non-empty text is accepted) but is kept fallible", matching
the doc comment of `Term::new_bnode` (src/term/src/lib.rs:164-166). -/
def BlankNode.new (id : String) : Except TermError (BlankNode String) :=
  .ok ⟨id⟩

/-- `Literal::new_lang`.
Modelled from the spec: §4.1 "Checked literal-with-language construction
fails with `MalformedLangTag` if the tag is not valid BCP47." -/
def Literal.new_lang (validLang : String → Bool) (txt lang : String) :
    Except TermError (Literal String) :=
  if validLang lang then .ok ⟨txt, .lang lang⟩
  else .error (.malformedLangTag lang)

/-- `Literal::new_dt`: infallible once the datatype is already an `Iri`. -/
def Literal.new_dt (txt : α) (dt : Iri α) : Literal α :=
  ⟨txt, .dt dt⟩

/-- `Variable::new`.
Modelled from the spec: `src/term/src/variable.rs` is missing from the
sources; §4.1 "Checked variable construction fails with
`MalformedVariableName` if the name violates variable-name grammar." -/
def Variable.new (validVar : String → Bool) (name : String) :
    Except TermError (Variable String) :=
  if validVar name then .ok ⟨name⟩
  else .error (.malformedVariableName name)

/-- `TryInto<Iri<T>> for Term`: succeeds exactly on the `Iri` variant.
Modelled from the spec: the conversion lives in the missing submodules;
§4.1 "Checked literal-with-datatype construction fails if the supplied
datatype cannot be converted into a valid identifier." -/
def Term.tryIntoIri : Term α → Except TermError (Iri α)
  | .iri i => .ok i
  | .bnode _ => .error (.malformedIri "")
  | .literal _ => .error (.malformedIri "")
  | .var _ => .error (.malformedIri "")

/-- `Term::new_iri` (src/term/src/lib.rs:141-147). -/
def Term.new_iri (validIri absIri : String → Bool) (iri : String) :
    Except TermError (Term String) :=
  (Iri.new validIri absIri iri).map Term.iri

/-- `Term::new_iri_suffixed` (src/term/src/lib.rs:153-160). -/
def Term.new_iri_suffixed (validIri absIri : String → Bool) (ns suffix : String) :
    Except TermError (Term String) :=
  (Iri.new_suffixed validIri absIri ns suffix).map Term.iri

/-- `Term::new_bnode` (src/term/src/lib.rs:167-173). -/
def Term.new_bnode (id : String) : Except TermError (Term String) :=
  (BlankNode.new id).map Term.bnode

/-- `Term::new_literal_lang` (src/term/src/lib.rs:178-184). -/
def Term.new_literal_lang (validLang : String → Bool) (txt lang : String) :
    Except TermError (Term String) :=
  (Literal.new_lang validLang txt lang).map Term.literal

/-- `Term::new_literal_dt` (src/term/src/lib.rs:189-196): converts the
supplied datatype into an `Iri` (fallibly) and builds the literal. -/
def Term.new_literal_dt (txt : String) (dt : Term String) :
    Except TermError (Term String) := do
  let i ← Term.tryIntoIri dt
  return Term.literal (Literal.new_dt txt i)

/-- `Term::new_variable` (src/term/src/lib.rs:201-207). -/
def Term.new_variable (validVar : String → Bool) (name : String) :
    Except TermError (Term String) :=
  (Variable.new validVar name).map Term.var

/-! ## Identifier normalization (src/term/src/lib.rs:292-298) -/

/-- Normalization policies.
Modelled from the spec: `src/term/src/iri.rs` is missing from the sources;
§4.3 names two policies: "collapsed into one contiguous span" and
"re-split into namespace/suffix at a policy-defined boundary (e.g., after
the last path or fragment delimiter)". -/
inductive Normalization : Type
  | noSuffix
  | lastGenDelim
  deriving DecidableEq, Repr

/-- RFC3986 gen-delims characters, the re-split boundary candidates. -/
def isGenDelim (c : Char) : Bool :=
  c == ':' || c == '/' || c == '?' || c == '#' || c == '[' || c == ']' || c == '@'

/-- Position just after the last gen-delim of a character list, if any. -/
def lastDelimPos : List Char → Option Nat
  | [] => none
  | c :: rest =>
    match lastDelimPos rest with
    | some k => some (k + 1)
    | none => if isGenDelim c then some 1 else none

/-- `Iri::normalized`.
Modelled from the spec: `src/term/src/iri.rs` is missing from the sources;
§4.3: the resolved text is kept and only the internal split changes —
either everything in `ns` with no suffix, or re-split after the last
gen-delim. -/
def Iri.normalized (va : α → String) (policy : Normalization) (i : Iri α) :
    Iri String :=
  let full := Iri.resolved va i
  match policy with
  | .noSuffix => ⟨full, none, i.absolute⟩
  | .lastGenDelim =>
    match lastDelimPos full.data with
    | none => ⟨full, none, i.absolute⟩
    | some k =>
      let sfx : List Char := full.data.drop k
      if sfx.isEmpty then ⟨full, none, i.absolute⟩
      else ⟨⟨full.data.take k⟩, some ⟨sfx⟩, i.absolute⟩

/-- `Literal::normalized`: normalize the datatype identifier (if any) the
same way; a language-tagged literal only gets its views resolved.
Modelled from the spec: `src/term/src/literal.rs` is missing from the
sources; §4.3 "For Literal terms, the datatype identifier (if any) is
normalized the same way". -/
def Literal.normalized (va : α → String) (policy : Normalization) (l : Literal α) :
    Literal String :=
  ⟨va l.txt,
    match l.kind with
    | .dt d => .dt (Iri.normalized va policy d)
    | .lang t => .lang (va t)⟩

/-- `Term::normalized` (src/term/src/lib.rs:292-298): dispatch — `Iri` and
`Literal` are normalized, other variants are returned as a borrowing view
(`as_ref_str().map_into()`). -/
def Term.normalized (va : α → String) (policy : Normalization) (t : Term α) :
    Term String :=
  match t with
  | .iri i => .iri (Iri.normalized va policy i)
  | .literal l => .literal (Literal.normalized va policy l)
  | .bnode b => Term.map_into id (Term.as_ref_str va (.bnode b))
  | .var v => Term.map_into id (Term.as_ref_str va (.var v))

/-! ## Absoluteness (src/term/src/lib.rs:405-417) -/

/-- `Iri::is_absolute`: the tracked flag.
Modelled from the spec: `src/term/src/iri.rs` is missing from the sources;
§2 "tracks absolute-vs-relative validity". -/
def Iri.is_absolute (i : Iri α) : Bool :=
  i.absolute

/-- `Literal::is_absolute`.
Modelled from the spec: `src/term/src/literal.rs` is missing from the
sources; the doc comment of `Term::is_absolute` (src/term/src/lib.rs:407-409)
states "A typed literal is absolute iff its datatype is absolute. Any other
term is always absolute." -/
def Literal.is_absolute (l : Literal α) : Bool :=
  match l.kind with
  | .dt d => Iri.is_absolute d
  | .lang _ => true

/-- `Term::is_absolute` (src/term/src/lib.rs:410-416). -/
def Term.is_absolute : Term α → Bool
  | .iri i => Iri.is_absolute i
  | .literal l => Literal.is_absolute l
  | .bnode _ => true
  | .var _ => true

/-- The `xsd::string` datatype IRI constant.
Modelled from the spec: `src/sophia/src/ns.rs` is missing from the sources;
`rio_common.rs` uses `xsd::string`, the (absolute) XML-Schema string
datatype IRI, as the default datatype of simple literals. -/
def xsdStringIri : Iri String :=
  ⟨"http://www.w3.org/2001/XMLSchema#string", none, true⟩

/-- `xsd::string` as a term, as passed to `new_literal_dt`. -/
def xsdString : Term String :=
  Term.iri xsdStringIri

/-! ## The sophia error model

`src/sophia/src/error.rs` is missing from the sources; modelled from the
spec (§7, §4.5). -/

/-- Error location.
Modelled from the spec: §7 `ParserError(message, location)`; `rio_common.rs`
uses `Location::Unknown`. -/
inductive Location : Type
  | unknown
  | position (line col : Nat)
  deriving DecidableEq, Repr

/-- The pipeline-native unified error type.
Modelled from the spec: §7 — construction errors (`From<TermError>`), the
`ParserError(message, location)` kind, and a catch-all for converted
external errors (`Error: From<T::Error>` / `From<E>` land here through the
conversion functions passed to `in_sink`). -/
inductive Error : Type
  | parserError (message : String) (location : Location)
  | term (e : TermError)
  | external (description : String)
  deriving DecidableEq, Repr

/-- The coerced error: a tagged union preserving which side produced the
failure.
Modelled from the spec: §4.5 / §9 — "an explicit tagged result type with
two error slots — pipeline-native and sink-native". -/
inductive Unified (F : Type) : Type
  | native (e : Error)
  | sink (f : F)
  deriving DecidableEq, Repr

/-- Outcome of one `in_sink` run. `panicked` embeds Rust divergence via
`unwrap` on an `Err` (src/sophia/src/parser/rio_common.rs:56-58). -/
inductive RunOut (O F : Type) : Type
  | ok (o : O)
  | err (u : Unified F)
  | panicked (msg : String)
  deriving DecidableEq, Repr

/-- The Rust panic message of `Result::unwrap` on an `Err`, abstracted. -/
def unwrapMsg : String :=
  "called Result.unwrap on an Err value"

/-- Sink-call trace events, used to observe how `in_sink` drives its
collaborators: `drove` marks one `parse_all` invocation of the external
parser, `fed` one `sink.feed` call, `finished` one `sink.finish` call. -/
inductive Ev : Type
  | drove
  | fed
  | finished
  deriving DecidableEq, Repr

/-! ## The external RIO model (rio_api, an external collaborator) -/

/-- RIO literal events (`rio_api::model::Literal`). -/
inductive RioLiteral : Type
  | simple (value : String)
  | languageTaggedString (value language : String)
  | typed (value datatype : String)
  deriving DecidableEq, Repr

/-- RIO term events (`rio_api::model::Term`); named and blank nodes carry
their text, subjects are injected via `.into()`. -/
inductive RioTerm : Type
  | blankNode (id : String)
  | namedNode (iri : String)
  | literal (l : RioLiteral)
  deriving DecidableEq, Repr

/-- A RIO triple event. -/
structure RioTriple : Type where
  subject : RioTerm
  predicate : RioTerm
  object : RioTerm
  deriving DecidableEq, Repr

/-- A RIO quad event: a triple plus optional graph name. -/
structure RioQuad : Type where
  subject : RioTerm
  predicate : RioTerm
  object : RioTerm
  graph_name : Option RioTerm
  deriving DecidableEq, Repr

/-- External triples parser state.
Modelled from the spec: §6 — "a foreign event source that, when driven to
completion, calls back once per parsed triple ... may itself fail with a
native error type at any point, aborting delivery". Embedded as the
remaining events followed by an optional native failure. -/
structure TriplesParser (PE : Type) : Type where
  triples : List RioTriple
  fail : Option PE
  deriving DecidableEq, Repr

/-- External quads parser state (same contract for quads). -/
structure QuadsParser (PE : Type) : Type where
  quads : List RioQuad
  fail : Option PE
  deriving DecidableEq, Repr

/-! ## RioSource (src/sophia/src/parser/rio_common.rs) -/

/-- `RioSource<T, E>` (src/sophia/src/parser/rio_common.rs:15-18). -/
inductive RioSource (T E : Type) : Type
  | parser (t : T)
  | error (e : Option E)
  deriving DecidableEq, Repr

/-- `impl From<StdResult<T, E>> for RioSource`
(src/sophia/src/parser/rio_common.rs:20-27). -/
def RioSource.fromResult : Except E T → RioSource T E
  | .ok t => .parser t
  | .error e => .error (some e)

/-- `rio2refterm` (src/sophia/src/parser/rio_common.rs:115-128), over the
black-box grammar predicates. -/
def rio2refterm (validIri validLang absIri : String → Bool) :
    RioTerm → Except TermError (Term String)
  | .blankNode b => Term.new_bnode b
  | .namedNode n => Term.new_iri validIri absIri n
  | .literal (.simple value) => Term.new_literal_dt value xsdString
  | .literal (.languageTaggedString value language) =>
      Term.new_literal_lang validLang value language
  | .literal (.typed value datatype) => do
      let dt ← Term.new_iri validIri absIri datatype
      Term.new_literal_dt value dt

/-- One converted triple item, as fed to the sink. -/
def TripleItem : Type :=
  Term String × Term String × Term String

instance : DecidableEq TripleItem := by
  unfold TripleItem
  infer_instance

/-- One converted quad item, as fed to the sink. -/
def QuadItem : Type :=
  TripleItem × Option (Term String)

instance : DecidableEq QuadItem := by
  unfold QuadItem
  infer_instance

/-- The closure body of the triple `in_sink` up to the `sink.feed` call
(src/sophia/src/parser/rio_common.rs:55-59): convert subject, predicate,
object in order, `unwrap`ping each; `none` encodes the panic of `unwrap`
on a conversion failure. -/
def convTriple (validIri validLang absIri : String → Bool) (t : RioTriple) :
    Option TripleItem :=
  match rio2refterm validIri validLang absIri t.subject with
  | .error _ => none
  | .ok s =>
    match rio2refterm validIri validLang absIri t.predicate with
    | .error _ => none
    | .ok p =>
      match rio2refterm validIri validLang absIri t.object with
      | .error _ => none
      | .ok o => some (s, p, o)

/-- The closure body of the quad `in_sink` up to the `sink.feed` call
(src/sophia/src/parser/rio_common.rs:94-105): the three positions then the
optional graph name, each `unwrap`ped. -/
def convQuad (validIri validLang absIri : String → Bool) (q : RioQuad) :
    Option QuadItem :=
  match convTriple validIri validLang absIri ⟨q.subject, q.predicate, q.object⟩ with
  | none => none
  | some spo =>
    match q.graph_name with
    | none => some (spo, none)
    | some n =>
      match rio2refterm validIri validLang absIri n with
      | .error _ => none
      | .ok g => some (spo, some g)

/-- A triple sink: state-passing embedding of the `TripleSink` trait.
Modelled from the spec: `src/sophia/src/triple/stream.rs` is missing from
the sources; §6 — "an accept one triple of Term values operation
(fallible) and a finalize operation returning a caller-defined outcome
value (fallible)". -/
structure TripleSink (σ O F : Type) : Type where
  feed : σ → TripleItem → Except F σ
  finish : σ → Except F O

/-- A quad sink (same contract for quads, `src/sophia/src/quad/stream.rs`
missing from the sources). -/
structure QuadSink (σ O F : Type) : Type where
  feed : σ → QuadItem → Except F σ
  finish : σ → Except F O

/-- Intermediate outcome of driving `parse_all`. -/
inductive PStep (σ : Type) : Type
  | ok (s : σ)
  | fail (e : Error)
  | panicked (msg : String)
  deriving DecidableEq, Repr

/-- `parser.parse_all(&mut |t| ...)` for triples
(src/sophia/src/parser/rio_common.rs:54-61): deliver each remaining event
to the closure — convert (panicking on conversion failure), feed the sink
(`map_err(TS::Error::into)` turning a sink rejection into the
pipeline-native error) — then report the parser's own failure, if any,
converted via `Error: From<T::Error>`. Returns the advanced parser state,
the step outcome, and the trace of sink calls. -/
def parse_all_triples (conv : RioTriple → Option TripleItem)
    (sink : TripleSink σ O F) (sinkToErr : F → Error) (fromPE : PE → Error) :
    List RioTriple → Option PE → σ → TriplesParser PE × PStep σ × List Ev
  | [], some pe, _ => (⟨[], some pe⟩, .fail (fromPE pe), [])
  | [], none, s => (⟨[], none⟩, .ok s, [])
  | t :: rest, fail, s =>
    match conv t with
    | none => (⟨rest, fail⟩, .panicked unwrapMsg, [])
    | some item =>
      match sink.feed s item with
      | .error f => (⟨rest, fail⟩, .fail (sinkToErr f), [.fed])
      | .ok s' =>
        let (p', out, log) := parse_all_triples conv sink sinkToErr fromPE rest fail s'
        (p', out, .fed :: log)

/-- `parser.parse_all(&mut |q| ...)` for quads
(src/sophia/src/parser/rio_common.rs:93-107). -/
def parse_all_quads (conv : RioQuad → Option QuadItem)
    (sink : QuadSink σ O F) (sinkToErr : F → Error) (fromPE : PE → Error) :
    List RioQuad → Option PE → σ → QuadsParser PE × PStep σ × List Ev
  | [], some pe, _ => (⟨[], some pe⟩, .fail (fromPE pe), [])
  | [], none, s => (⟨[], none⟩, .ok s, [])
  | q :: rest, fail, s =>
    match conv q with
    | none => (⟨rest, fail⟩, .panicked unwrapMsg, [])
    | some item =>
      match sink.feed s item with
      | .error f => (⟨rest, fail⟩, .fail (sinkToErr f), [.fed])
      | .ok s' =>
        let (p', out, log) := parse_all_quads conv sink sinkToErr fromPE rest fail s'
        (p', out, .fed :: log)

/-- `RioSource::in_sink` of the `TripleSource` impl
(src/sophia/src/parser/rio_common.rs:37-65).

* `Error(Some e)`: `opt.take()` yields `e`, leaving `None`; return
  `Err(Error::from(e).into())`.
* `Error(None)`: return the fixed
  `ParserError("This parser has already failed", Unknown)`.
* `Parser(p)`: drive `parse_all`; `?` lands parser/feed errors in the
  native slot, then `Ok(sink.finish()?)` with finish errors in the sink
  slot.

Returns the mutated source (`&mut self`), the run outcome, and the trace. -/
def RioSource.in_sink_triple (validIri validLang absIri : String → Bool)
    (fromPE : PE → Error) (fromE : E → Error) (sinkToErr : F → Error)
    (src : RioSource (TriplesParser PE) E) (sink : TripleSink σ O F) (s : σ) :
    RioSource (TriplesParser PE) E × RunOut O F × List Ev :=
  match src with
  | .error (some e) => (.error none, .err (.native (fromE e)), [])
  | .error none =>
    (.error none,
      .err (.native (.parserError "This parser has already failed" .unknown)), [])
  | .parser p =>
    let pa :=
      parse_all_triples (convTriple validIri validLang absIri) sink sinkToErr fromPE
        p.triples p.fail s
    match pa.2.1 with
    | .panicked m => (.parser pa.1, .panicked m, .drove :: pa.2.2)
    | .fail e => (.parser pa.1, .err (.native e), .drove :: pa.2.2)
    | .ok s' =>
      match sink.finish s' with
      | .error f => (.parser pa.1, .err (.sink f), .drove :: (pa.2.2 ++ [.finished]))
      | .ok o => (.parser pa.1, .ok o, .drove :: (pa.2.2 ++ [.finished]))

/-- `RioSource::in_sink` of the `QuadSource` impl
(src/sophia/src/parser/rio_common.rs:76-111); same shape as the triple
impl, with the graph name converted as a fourth position. -/
def RioSource.in_sink_quad (validIri validLang absIri : String → Bool)
    (fromPE : PE → Error) (fromE : E → Error) (sinkToErr : F → Error)
    (src : RioSource (QuadsParser PE) E) (sink : QuadSink σ O F) (s : σ) :
    RioSource (QuadsParser PE) E × RunOut O F × List Ev :=
  match src with
  | .error (some e) => (.error none, .err (.native (fromE e)), [])
  | .error none =>
    (.error none,
      .err (.native (.parserError "This parser has already failed" .unknown)), [])
  | .parser p =>
    let pa :=
      parse_all_quads (convQuad validIri validLang absIri) sink sinkToErr fromPE
        p.quads p.fail s
    match pa.2.1 with
    | .panicked m => (.parser pa.1, .panicked m, .drove :: pa.2.2)
    | .fail e => (.parser pa.1, .err (.native e), .drove :: pa.2.2)
    | .ok s' =>
      match sink.finish s' with
      | .error f => (.parser pa.1, .err (.sink f), .drove :: (pa.2.2 ++ [.finished]))
      | .ok o => (.parser pa.1, .ok o, .drove :: (pa.2.2 ++ [.finished]))

/-- Feeding a list of already-converted items into a sink, state-passing:
the reference fold the `Parser` branch follows when no conversion fails. -/
def feedAllTriples (sink : TripleSink σ O F) : List TripleItem → σ → Except F σ
  | [], s => .ok s
  | i :: rest, s =>
    match sink.feed s i with
    | .error f => .error f
    | .ok s' => feedAllTriples sink rest s'

/-- Converting a whole event list: `some items` iff no conversion panics. -/
def convAllTriples (conv : RioTriple → Option TripleItem) :
    List RioTriple → Option (List TripleItem)
  | [] => some []
  | t :: rest =>
    match conv t with
    | none => none
    | some i => (convAllTriples conv rest).map (i :: ·)

/-- The trace of `parse_all` consists of `fed` events only: the parser
branch never calls `finish` while feeding. -/
theorem parse_all_triples_log_fed (conv : RioTriple → Option TripleItem)
    (sink : TripleSink σ O F) (sinkToErr : F → Error) (fromPE : PE → Error) :
    ∀ (evs : List RioTriple) (fail : Option PE) (s : σ),
      ∀ e ∈ (parse_all_triples conv sink sinkToErr fromPE evs fail s).2.2, e = Ev.fed := by
  intro evs
  induction evs with
  | nil =>
    intro fail s e he
    cases fail <;> simp [parse_all_triples] at he
  | cons t rest ih =>
    intro fail s e he
    simp only [parse_all_triples] at he
    cases hc : conv t with
    | none => simp [hc] at he
    | some item =>
      cases hf : sink.feed s item with
      | error f => simp [hc, hf] at he; exact he
      | ok s' =>
        simp [hc, hf] at he
        rcases he with h | h
        · exact h
        · exact ih fail s' e h

/-- When every conversion succeeds, the parser branch's step outcome is the
plain feed fold: the first sink rejection (converted to the native error),
else the parser's own failure, else success with the final sink state. -/
theorem parse_all_triples_step (conv : RioTriple → Option TripleItem)
    (sink : TripleSink σ O F) (sinkToErr : F → Error) (fromPE : PE → Error) :
    ∀ (evs : List RioTriple) (items : List TripleItem) (fail : Option PE) (s : σ),
      convAllTriples conv evs = some items →
      (parse_all_triples conv sink sinkToErr fromPE evs fail s).2.1 =
        (match feedAllTriples sink items s with
          | .error f => PStep.fail (sinkToErr f)
          | .ok s' =>
            match fail with
            | some pe => PStep.fail (fromPE pe)
            | none => PStep.ok s') := by
  intro evs
  induction evs with
  | nil =>
    intro items fail s hconv
    simp [convAllTriples] at hconv
    subst hconv
    cases fail <;> simp [parse_all_triples, feedAllTriples]
  | cons t rest ih =>
    intro items fail s hconv
    simp only [convAllTriples] at hconv
    cases hc : conv t with
    | none => simp [hc] at hconv
    | some i =>
      simp only [hc] at hconv
      cases hr : convAllTriples conv rest with
      | none => simp [hr] at hconv
      | some ritems =>
        simp only [hr, Option.map_some'] at hconv
        rw [Option.some_inj] at hconv
        subst hconv
        simp only [parse_all_triples, hc, feedAllTriples]
        cases hf : sink.feed s i with
        | error f => simp [hf]
        | ok s' =>
          simp only [hf]
          exact ih ritems fail s' hr

/-- A successful parse leaves the external parser empty: no events remain
and no native failure is pending. -/
theorem parse_all_triples_ok_state (conv : RioTriple → Option TripleItem)
    (sink : TripleSink σ O F) (sinkToErr : F → Error) (fromPE : PE → Error) :
    ∀ (evs : List RioTriple) (fail : Option PE) (s s' : σ),
      (parse_all_triples conv sink sinkToErr fromPE evs fail s).2.1 = PStep.ok s' →
      (parse_all_triples conv sink sinkToErr fromPE evs fail s).1 = ⟨[], none⟩ := by
  intro evs
  induction evs with
  | nil =>
    intro fail s s' h
    cases fail with
    | none => rfl
    | some pe => simp [parse_all_triples] at h
  | cons t rest ih =>
    intro fail s s' h
    simp only [parse_all_triples] at h ⊢
    cases hc : conv t with
    | none => simp [hc] at h
    | some i =>
      cases hf : sink.feed s i with
      | error f => simp [hc, hf] at h
      | ok s2 =>
        simp only [hc, hf] at h ⊢
        exact ih fail s2 s' h

theorem string_append_empty (s : String) : s ++ "" = s := by
  cases s with
  | mk data =>
    show String.mk (data ++ []) = String.mk data
    rw [List.append_nil]

theorem resolved_mk_none (ns : String) :
    Iri.resolved id (⟨ns, none, b⟩ : Iri String) = ns := by
  simp only [Iri.resolved, id]
  exact string_append_empty ns

/-- Normalization keeps the resolved full text of an IRI. -/
theorem resolved_normalized (va : α → String) (policy : Normalization) (i : Iri α) :
    Iri.resolved id (Iri.normalized va policy i) = Iri.resolved va i := by
  cases policy with
  | noSuffix => exact resolved_mk_none _
  | lastGenDelim =>
    simp only [Iri.normalized]
    cases h : lastDelimPos (Iri.resolved va i).data with
    | none => exact resolved_mk_none _
    | some k =>
      by_cases he : ((Iri.resolved va i).data.drop k).isEmpty
      · simp only [he, if_true]
        exact resolved_mk_none _
      · simp only [he, if_false]
        simp only [Iri.resolved, id]
        show String.mk ((Iri.resolved va i).data.take k ++ (Iri.resolved va i).data.drop k) =
          Iri.resolved va i
        rw [List.take_append_drop]

/-- Normalization keeps the resolved content of the whole term. -/
theorem content_normalized (va : α → String) (policy : Normalization) (t : Term α) :
    Term.content id (Term.normalized va policy t) = Term.content va t := by
  cases t with
  | iri i =>
    simp [Term.normalized, Term.content, resolved_normalized]
  | literal l =>
    cases h : l.kind with
    | dt d =>
      simp [Term.normalized, Term.content, Literal.normalized, h, resolved_normalized]
    | lang tg =>
      simp [Term.normalized, Term.content, Literal.normalized, h]
  | bnode b =>
    simp only [Term.normalized, Term.map_into, as_ref_str_eq_map]
    rw [content_map id id id (fun _ => rfl),
      content_map va id va (fun _ => rfl)]
  | var v =>
    simp only [Term.normalized, Term.map_into, as_ref_str_eq_map]
    rw [content_map id id id (fun _ => rfl),
      content_map va id va (fun _ => rfl)]

/-- The source state after `n` successive `in_sink` calls (triples),
each call made with the same sink and a fresh sink state. -/
def iterSourceTriple (validIri validLang absIri : String → Bool)
    (fromPE : PE → Error) (fromE : E → Error) (sinkToErr : F → Error)
    (sink : TripleSink σ O F) (s0 : σ) :
    Nat → RioSource (TriplesParser PE) E → RioSource (TriplesParser PE) E
  | 0, src => src
  | n + 1, src =>
    (RioSource.in_sink_triple validIri validLang absIri fromPE fromE sinkToErr
      (iterSourceTriple validIri validLang absIri fromPE fromE sinkToErr sink s0 n src)
      sink s0).1

/-- The source state after `n` successive `in_sink` calls (quads). -/
def iterSourceQuad (validIri validLang absIri : String → Bool)
    (fromPE : PE → Error) (fromE : E → Error) (sinkToErr : F → Error)
    (sink : QuadSink σ O F) (s0 : σ) :
    Nat → RioSource (QuadsParser PE) E → RioSource (QuadsParser PE) E
  | 0, src => src
  | n + 1, src =>
    (RioSource.in_sink_quad validIri validLang absIri fromPE fromE sinkToErr
      (iterSourceQuad validIri validLang absIri fromPE fromE sinkToErr sink s0 n src)
      sink s0).1

/-! ## Claims -/

/-- **C9**: wrapping a result into a source (`RioSource::from`) yields the
`Active` (`Parser`) state holding the parser when the result is
`Ok(parser)`, and the `Exhausted-with-error` (`Error(Some _)`) state
holding exactly that failure when the result is `Err(e)`. -/
theorem C9_from_result {T E : Type} (t : T) (e : E) :
    (RioSource.fromResult (.ok t) : RioSource T E) = .parser t
    ∧ (RioSource.fromResult (.error e) : RioSource T E) = .error (some e) :=
  ⟨rfl, rfl⟩

/-- **C2**: driving a source built from an initialization failure `e`
returns `Err` holding exactly `e` converted into the unified error type
(native slot) and leaves the source holding `None`; every subsequent call
(any number of further iterations, triple or quad impl) returns the fixed
`ParserError` with message "This parser has already failed" and location
`Unknown`, never the original failure again. -/
theorem C2_exhausted_with_error_source
    {PE E σ O F : Type}
    (validIri validLang absIri : String → Bool)
    (fromPE : PE → Error) (fromE : E → Error) (sinkToErr : F → Error)
    (tsink : TripleSink σ O F) (qsink : QuadSink σ O F) (s0 : σ) (e : E) :
    RioSource.in_sink_triple validIri validLang absIri fromPE fromE sinkToErr
        (.error (some e)) tsink s0 =
      (.error none, .err (.native (fromE e)), [])
    ∧ RioSource.in_sink_triple validIri validLang absIri fromPE fromE sinkToErr
        (.error none) tsink s0 =
      (.error none,
        .err (.native (.parserError "This parser has already failed" .unknown)), [])
    ∧ (∀ n : Nat,
        iterSourceTriple validIri validLang absIri fromPE fromE sinkToErr tsink s0
          (n + 1) (.error (some e)) = .error none
        ∧ (RioSource.in_sink_triple validIri validLang absIri fromPE fromE sinkToErr
            (iterSourceTriple validIri validLang absIri fromPE fromE sinkToErr tsink s0
              (n + 1) (.error (some e))) tsink s0).2.1 =
          .err (.native (.parserError "This parser has already failed" .unknown)))
    ∧ RioSource.in_sink_quad validIri validLang absIri fromPE fromE sinkToErr
        (.error (some e)) qsink s0 =
      (.error none, .err (.native (fromE e)), [])
    ∧ RioSource.in_sink_quad validIri validLang absIri fromPE fromE sinkToErr
        (.error none) qsink s0 =
      (.error none,
        .err (.native (.parserError "This parser has already failed" .unknown)), [])
    ∧ (∀ n : Nat,
        iterSourceQuad validIri validLang absIri fromPE fromE sinkToErr qsink s0
          (n + 1) (.error (some e)) = .error none
        ∧ (RioSource.in_sink_quad validIri validLang absIri fromPE fromE sinkToErr
            (iterSourceQuad validIri validLang absIri fromPE fromE sinkToErr qsink s0
              (n + 1) (.error (some e))) qsink s0).2.1 =
          .err (.native (.parserError "This parser has already failed" .unknown))) := by
  refine ⟨rfl, rfl, ?_, rfl, rfl, ?_⟩
  · intro n
    induction n with
    | zero => exact ⟨rfl, rfl⟩
    | succ k ih =>
      have h1 : iterSourceTriple validIri validLang absIri fromPE fromE sinkToErr tsink s0
          (k + 2) (.error (some e)) = .error none := by
        show (RioSource.in_sink_triple validIri validLang absIri fromPE fromE sinkToErr
          (iterSourceTriple validIri validLang absIri fromPE fromE sinkToErr tsink s0
            (k + 1) (.error (some e))) tsink s0).1 = .error none
        rw [ih.1]
        rfl
      refine ⟨h1, ?_⟩
      rw [h1]
      rfl
  · intro n
    induction n with
    | zero => exact ⟨rfl, rfl⟩
    | succ k ih =>
      have h1 : iterSourceQuad validIri validLang absIri fromPE fromE sinkToErr qsink s0
          (k + 2) (.error (some e)) = .error none := by
        show (RioSource.in_sink_quad validIri validLang absIri fromPE fromE sinkToErr
          (iterSourceQuad validIri validLang absIri fromPE fromE sinkToErr qsink s0
            (k + 1) (.error (some e))) qsink s0).1 = .error none
        rw [ih.1]
        rfl
      refine ⟨h1, ?_⟩
      rw [h1]
      rfl

/-- **C8**: for every non-empty input text `id`, the checked blank-node
constructor `new_bnode(id)` succeeds — it currently never fails on content
although its return type stays fallible. -/
theorem C8_new_bnode_never_fails (id : String) (_h : id ≠ "") :
    ∃ t, Term.new_bnode id = .ok t :=
  ⟨.bnode ⟨id⟩, rfl⟩

/-- Witness for C8 at the concrete id `"b1"`. -/
theorem C8_new_bnode_never_fails_witness :
    "b1" ≠ "" ∧ ∃ t, Term.new_bnode "b1" = .ok t :=
  ⟨by decide, C8_new_bnode_never_fails "b1" (by decide)⟩

/-- **C10**: `is_absolute` returns `true` on every `BNode` and `Variable`
term; on an `Iri` term it returns the IRI's absoluteness; on a `Literal`
term it returns the absoluteness of its datatype, so a language-tagged
literal is always absolute and a plain literal (default `xsd:string`
datatype) is always absolute. -/
theorem C10_is_absolute {α : Type} :
    (∀ b : BlankNode α, Term.is_absolute (Term.bnode b) = true)
    ∧ (∀ v : Variable α, Term.is_absolute (Term.var v) = true)
    ∧ (∀ i : Iri α, Term.is_absolute (Term.iri i) = Iri.is_absolute i)
    ∧ (∀ l : Literal α, Term.is_absolute (Term.literal l) = Literal.is_absolute l)
    ∧ (∀ (txt tg : α), Term.is_absolute (Term.literal ⟨txt, .lang tg⟩) = true)
    ∧ (∀ (txt : α) (d : Iri α),
        Term.is_absolute (Term.literal ⟨txt, .dt d⟩) = d.absolute)
    ∧ (∀ v : String,
        Term.is_absolute (Term.literal (Literal.new_dt v xsdStringIri)) = true) :=
  ⟨fun _ => rfl, fun _ => rfl, fun _ => rfl, fun _ => rfl,
    fun _ _ => rfl, fun _ _ => rfl, fun _ => rfl⟩

/-- **C7**: `normalized(policy)` normalizes the identifier representation
of an `Iri` term, normalizes the datatype identifier (if any) of a
`Literal` term the same way, and returns `BNode` and `Variable` terms
unchanged (the borrowing `as_ref_str` view); in all cases the result
is equal to the original term. -/
theorem C7_normalized (va : α → String) (policy : Normalization) (t : Term α) :
    Term.beq va id t (Term.normalized va policy t) = true
    ∧ (Term.normalized va policy t).variant = t.variant
    ∧ (∀ i, Term.normalized va policy (Term.iri i) =
        .iri (Iri.normalized va policy i))
    ∧ (∀ l, Term.normalized va policy (Term.literal l) =
        .literal (Literal.normalized va policy l))
    ∧ (∀ b, Term.normalized va policy (Term.bnode b) =
        Term.map_into id (Term.as_ref_str va (Term.bnode b)))
    ∧ (∀ v, Term.normalized va policy (Term.var v) =
        Term.map_into id (Term.as_ref_str va (Term.var v))) := by
  refine ⟨?_, ?_, fun _ => rfl, fun _ => rfl, fun _ => rfl, fun _ => rfl⟩
  · rw [beq_iff_content, content_normalized]
  · have h := content_normalized va policy t
    have h1 := content_variant id (Term.normalized va policy t)
    have h2 := content_variant va t
    rw [← h1, ← h2, h]

/-- **C5**: for all ownership strategies and terms, `t1 == t2` holds iff
the two terms have the same active variant and structurally equal payloads
resolved to text content; terms of different variants are never equal; and
equality against a bare `Iri`, `Literal`, `BlankNode` or `Variable` value
holds exactly when the term's active variant is the matching one and the
payloads are equal. -/
theorem C5_cross_strategy_equality (va : α → String) (vb : β → String) :
    (∀ (t1 : Term α) (t2 : Term β),
        Term.beq va vb t1 t2 = true ↔ Term.content va t1 = Term.content vb t2)
    ∧ (∀ (t1 : Term α) (t2 : Term β),
        t1.variant ≠ t2.variant → Term.beq va vb t1 t2 = false)
    ∧ (∀ (t : Term α) (i : Iri β),
        Term.beqIri va vb t i = true ↔
          ∃ i1, t = .iri i1 ∧ Iri.beq va vb i1 i = true)
    ∧ (∀ (t : Term α) (l : Literal β),
        Term.beqLiteral va vb t l = true ↔
          ∃ l1, t = .literal l1 ∧ Literal.beq va vb l1 l = true)
    ∧ (∀ (t : Term α) (b : BlankNode β),
        Term.beqBNode va vb t b = true ↔
          ∃ b1, t = .bnode b1 ∧ BlankNode.beq va vb b1 b = true)
    ∧ (∀ (t : Term α) (v : Variable β),
        Term.beqVariable va vb t v = true ↔
          ∃ v1, t = .var v1 ∧ Variable.beq va vb v1 v = true) := by
  refine ⟨beq_iff_content va vb, ?_, ?_, ?_, ?_, ?_⟩
  · intro t1 t2 hne
    cases h : Term.beq va vb t1 t2 with
    | false => rfl
    | true =>
      exfalso
      apply hne
      have hc := (beq_iff_content va vb t1 t2).mp h
      rw [← content_variant va t1, ← content_variant vb t2, hc]
  · intro t i
    cases t <;> simp [Term.beqIri]
  · intro t l
    cases t <;> simp [Term.beqLiteral]
  · intro t b
    cases t <;> simp [Term.beqBNode]
  · intro t v
    cases t <;> simp [Term.beqVariable]

/-- Witness for C5's conditional conjunct at concrete terms: a blank node
and an IRI term (different variants) are not equal. -/
theorem C5_cross_strategy_equality_witness :
    Term.beq id id (Term.bnode ⟨"a"⟩ : Term String)
      (Term.iri ⟨"http://ex.org/a", none, true⟩) = false :=
  (C5_cross_strategy_equality id id).2.1 (Term.bnode ⟨"a"⟩)
    (Term.iri ⟨"http://ex.org/a", none, true⟩) (by decide)

/-- **C6**: the transformation operations (`map`, `map_into`, `clone_map`,
`clone_into`, `as_ref`, `as_ref_str`) with a text-preserving ownership
conversion produce a term with the same active variant, equal to the
original, with the same validity; they never re-validate (they are total
and validation-free). -/
theorem C6_transformations (va : α → String) (vb : β → String)
    (gi gl gb gv : String → Bool) :
    (∀ f : α → β, (∀ a, vb (f a) = va a) → ∀ t : Term α,
        (Term.map f t).variant = t.variant
        ∧ Term.beq va vb t (Term.map f t) = true
        ∧ Term.valid vb gi gl gb gv (Term.map f t) = Term.valid va gi gl gb gv t
        ∧ Term.map_into f t = Term.map f t)
    ∧ (∀ factory : String → β, (∀ s, vb (factory s) = s) → ∀ t : Term α,
        (Term.clone_map va factory t).variant = t.variant
        ∧ Term.beq va vb t (Term.clone_map va factory t) = true
        ∧ Term.valid vb gi gl gb gv (Term.clone_map va factory t) =
            Term.valid va gi gl gb gv t
        ∧ Term.clone_into va factory t = Term.clone_map va factory t)
    ∧ (∀ t : Term α,
        Term.as_ref t = t
        ∧ (Term.as_ref_str va t).variant = t.variant
        ∧ Term.beq va id t (Term.as_ref_str va t) = true
        ∧ Term.valid id gi gl gb gv (Term.as_ref_str va t) =
            Term.valid va gi gl gb gv t) := by
  have key : ∀ f : α → β, (∀ a, vb (f a) = va a) → ∀ t : Term α,
      (Term.map f t).variant = t.variant
      ∧ Term.beq va vb t (Term.map f t) = true
      ∧ Term.valid vb gi gl gb gv (Term.map f t) = Term.valid va gi gl gb gv t := by
    intro f hf t
    have hc := content_map va vb f hf t
    refine ⟨variant_map f t, ?_, ?_⟩
    · rw [beq_iff_content, hc]
    · simp only [Term.valid, hc]
  refine ⟨?_, ?_, ?_⟩
  · intro f hf t
    exact ⟨(key f hf t).1, (key f hf t).2.1, (key f hf t).2.2, rfl⟩
  · intro factory hfac t
    have h := key (fun a => factory (va a)) (fun a => hfac (va a)) t
    exact ⟨h.1, h.2.1, h.2.2, rfl⟩
  · intro t
    have hc := content_map va id va (fun _ => rfl) t
    refine ⟨by cases t <;> rfl, ?_, ?_, ?_⟩
    · rw [as_ref_str_eq_map]
      exact variant_map va t
    · rw [as_ref_str_eq_map, beq_iff_content, hc]
    · rw [as_ref_str_eq_map]
      simp only [Term.valid, hc]

/-- Witness for C6 at the identity conversion on the `String` strategy and
a concrete blank-node term. -/
theorem C6_transformations_witness :
    Term.beq id id (Term.bnode ⟨"a"⟩ : Term String)
      (Term.map id (Term.bnode ⟨"a"⟩ : Term String)) = true :=
  ((C6_transformations id id (fun _ => true) (fun _ => true) (fun _ => true)
      (fun _ => true)).1 id (fun _ => rfl) (Term.bnode ⟨"a"⟩)).2.1

/-- **C3**: for an `Active` source whose events all convert, if the sink's
feed rejects some item then `in_sink` returns that sink error converted
into the coerced result (native slot, via `TS::Error::into`) and never
calls `finish`; if every feed succeeds (and the parser itself does not
fail), `in_sink` calls `finish` exactly once and returns its outcome —
one outcome or one error, never both. -/
theorem C3_sink_error_aborts_success_finishes_once
    {PE E σ O F : Type} (validIri validLang absIri : String → Bool)
    (fromPE : PE → Error) (fromE : E → Error) (sinkToErr : F → Error)
    (p : TriplesParser PE) (sink : TripleSink σ O F) (s0 : σ)
    (items : List TripleItem)
    (hconv : convAllTriples (convTriple validIri validLang absIri) p.triples =
      some items) :
    (∀ f, feedAllTriples sink items s0 = .error f →
        (RioSource.in_sink_triple (E := E) validIri validLang absIri fromPE fromE
            sinkToErr (.parser p) sink s0).2.1 = .err (.native (sinkToErr f))
        ∧ Ev.finished ∉ (RioSource.in_sink_triple (E := E) validIri validLang absIri
            fromPE fromE sinkToErr (.parser p) sink s0).2.2)
    ∧ (∀ s', feedAllTriples sink items s0 = .ok s' → p.fail = none →
        ((RioSource.in_sink_triple (E := E) validIri validLang absIri fromPE fromE
            sinkToErr (.parser p) sink s0).2.2).count Ev.finished = 1
        ∧ (RioSource.in_sink_triple (E := E) validIri validLang absIri fromPE fromE
            sinkToErr (.parser p) sink s0).2.1 =
          (match sink.finish s' with
            | .ok o => RunOut.ok o
            | .error f => RunOut.err (.sink f))) := by
  have hlog := parse_all_triples_log_fed (convTriple validIri validLang absIri) sink
    sinkToErr fromPE p.triples p.fail s0
  have hnotin : Ev.finished ∉ (parse_all_triples (convTriple validIri validLang absIri)
      sink sinkToErr fromPE p.triples p.fail s0).2.2 := by
    intro hmem
    exact absurd (hlog _ hmem) (by decide)
  constructor
  · intro f hf
    have hstep : (parse_all_triples (convTriple validIri validLang absIri) sink
        sinkToErr fromPE p.triples p.fail s0).2.1 = PStep.fail (sinkToErr f) := by
      have h := parse_all_triples_step (convTriple validIri validLang absIri) sink
        sinkToErr fromPE p.triples items p.fail s0 hconv
      rw [hf] at h
      exact h
    constructor
    · simp only [RioSource.in_sink_triple, hstep]
    · simp only [RioSource.in_sink_triple, hstep]
      intro hmem
      rcases List.mem_cons.mp hmem with h | h
      · exact absurd h (by decide)
      · exact hnotin h
  · intro s' hs hfail
    have hstep : (parse_all_triples (convTriple validIri validLang absIri) sink
        sinkToErr fromPE p.triples p.fail s0).2.1 = PStep.ok s' := by
      rw [hfail]
      have h := parse_all_triples_step (convTriple validIri validLang absIri) sink
        sinkToErr fromPE p.triples items none s0 hconv
      rw [hs] at h
      exact h
    have hcount : ((parse_all_triples (convTriple validIri validLang absIri) sink
        sinkToErr fromPE p.triples p.fail s0).2.2).count Ev.finished = 0 :=
      List.count_eq_zero.mpr hnotin
    constructor
    · simp only [RioSource.in_sink_triple, hstep]
      cases hfin : sink.finish s' <;>
        simp [List.count_cons, List.count_append, hcount]
    · simp only [RioSource.in_sink_triple, hstep]
      cases hfin : sink.finish s' <;> simp [hfin]

/-! ### Concrete fixtures for witnesses and counterexamples -/

/-- A sink that counts accepted triples; the outcome is the count. -/
def countSink : TripleSink Nat Nat Unit :=
  ⟨fun s _ => .ok (s + 1), fun s => .ok s⟩

/-- A quad sink that counts accepted quads. -/
def countQuadSink : QuadSink Nat Nat Unit :=
  ⟨fun s _ => .ok (s + 1), fun s => .ok s⟩

/-- A RIO triple of three valid named nodes. -/
def sampleTriple : RioTriple :=
  ⟨.namedNode "http://ex.org/s", .namedNode "http://ex.org/p",
    .namedNode "http://ex.org/o"⟩

/-- Grammar stand-in accepting everything. -/
def allValid : String → Bool := fun _ => true

/-- IRI grammar stand-in rejecting exactly the text `"a b"` (a
space-carrying IRI reference is invalid per RFC3987). -/
def rejectSpaced : String → Bool := fun s => !(s == "a b")

/-- Conversion of the external parser's native error. -/
def extPE : Unit → Error := fun _ => .external "parser failure"

/-- Conversion of the initialization error. -/
def extE : Unit → Error := fun _ => .external "init failure"

/-- Conversion of the sink error into the pipeline-native error. -/
def extSinkUnit : Unit → Error := fun _ => .external "sink failure"

/-- The items `sampleTriple` converts to. -/
def sampleItem : TripleItem :=
  (Term.iri ⟨"http://ex.org/s", none, true⟩,
   Term.iri ⟨"http://ex.org/p", none, true⟩,
   Term.iri ⟨"http://ex.org/o", none, true⟩)

/-- Witness for C3 at a one-triple parser and the counting sink: all feeds
succeed, `finish` is called exactly once, and the outcome `1` is
returned. -/
theorem C3_sink_error_aborts_success_finishes_once_witness :
    ((RioSource.in_sink_triple (E := Unit) allValid allValid allValid extPE extE
        extSinkUnit (.parser ⟨[sampleTriple], none⟩) countSink 0).2.2).count
      Ev.finished = 1
    ∧ (RioSource.in_sink_triple (E := Unit) allValid allValid allValid extPE extE
        extSinkUnit (.parser ⟨[sampleTriple], none⟩) countSink 0).2.1 =
      RunOut.ok 1 :=
  (C3_sink_error_aborts_success_finishes_once (E := Unit) allValid allValid allValid
    extPE extE extSinkUnit ⟨[sampleTriple], none⟩ countSink 0 [sampleItem] rfl).2
    1 rfl rfl

/-- **C4 counterexample**: a source driven successfully once (outcome `1`)
and then driven a second time does NOT return the "already exhausted"
error: the second call re-drives the external parser (a `drove` event
occurs) and returns the sink's finalize outcome `0` of the second run. -/
theorem C4_counterexample :
    (RioSource.in_sink_triple (E := Unit) allValid allValid allValid extPE extE
        extSinkUnit (.parser ⟨[sampleTriple], none⟩) countSink 0).2.1 = .ok 1
    ∧ (RioSource.in_sink_triple (E := Unit) allValid allValid allValid extPE extE
        extSinkUnit
        ((RioSource.in_sink_triple (E := Unit) allValid allValid allValid extPE extE
          extSinkUnit (.parser ⟨[sampleTriple], none⟩) countSink 0).1)
        countSink 0).2.1 = .ok 0
    ∧ (RioSource.in_sink_triple (E := Unit) allValid allValid allValid extPE extE
        extSinkUnit
        ((RioSource.in_sink_triple (E := Unit) allValid allValid allValid extPE extE
          extSinkUnit (.parser ⟨[sampleTriple], none⟩) countSink 0).1)
        countSink 0).2.1 ≠
      .err (.native (.parserError "This parser has already failed" .unknown))
    ∧ Ev.drove ∈ (RioSource.in_sink_triple (E := Unit) allValid allValid allValid
        extPE extE extSinkUnit
        ((RioSource.in_sink_triple (E := Unit) allValid allValid allValid extPE extE
          extSinkUnit (.parser ⟨[sampleTriple], none⟩) countSink 0).1)
        countSink 0).2.2 := by
  refine ⟨rfl, rfl, ?_, ?_⟩
  · decide
  · decide

/-- **C4 amended**: a source whose first `in_sink` run returned the sink's
outcome stays `Active`, holding the fully-consumed parser (no events, no
pending failure); a second call re-drives the external parser (a `drove`
event occurs) and returns the outcome of finalizing the sink again — the
"already exhausted" error is returned only by an `Exhausted-with-error`
source whose captured error was already taken. -/
theorem C4_second_run_redrives
    {PE E σ O F : Type} (validIri validLang absIri : String → Bool)
    (fromPE : PE → Error) (fromE : E → Error) (sinkToErr : F → Error)
    (p : TriplesParser PE) (sink : TripleSink σ O F) (s0 : σ) (o : O)
    (h : (RioSource.in_sink_triple (E := E) validIri validLang absIri fromPE fromE
        sinkToErr (.parser p) sink s0).2.1 = .ok o) :
    (RioSource.in_sink_triple (E := E) validIri validLang absIri fromPE fromE
        sinkToErr (.parser p) sink s0).1 = .parser ⟨[], none⟩
    ∧ (∀ s1, RioSource.in_sink_triple (E := E) validIri validLang absIri fromPE fromE
        sinkToErr (.parser (⟨[], none⟩ : TriplesParser PE)) sink s1 =
        (.parser ⟨[], none⟩,
          (match sink.finish s1 with
            | .ok o2 => RunOut.ok o2
            | .error f => RunOut.err (.sink f)),
          [.drove, .finished])) := by
  constructor
  · cases hstep : (parse_all_triples (convTriple validIri validLang absIri) sink
        sinkToErr fromPE p.triples p.fail s0).2.1 with
    | panicked m =>
      simp only [RioSource.in_sink_triple, hstep] at h
      exact RunOut.noConfusion h
    | fail e =>
      simp only [RioSource.in_sink_triple, hstep] at h
      exact RunOut.noConfusion h
    | ok s' =>
      have hst := parse_all_triples_ok_state (convTriple validIri validLang absIri)
        sink sinkToErr fromPE p.triples p.fail s0 s' hstep
      simp only [RioSource.in_sink_triple, hstep]
      cases hfin : sink.finish s' <;> simp [hfin, hst]
  · intro s1
    cases hfin : sink.finish s1 <;>
      simp [RioSource.in_sink_triple, parse_all_triples, hfin]

/-- Witness for the amended C4: after the successful one-triple run, the
second call on the (still `Active`) source returns the counting sink's
fresh finalize outcome `5`, having re-driven the parser. -/
theorem C4_second_run_redrives_witness :
    RioSource.in_sink_triple (E := Unit) allValid allValid allValid extPE extE
        extSinkUnit (.parser (⟨[], none⟩ : TriplesParser Unit)) countSink 5 =
      (.parser ⟨[], none⟩, .ok 5, [.drove, .finished]) :=
  (C4_second_run_redrives allValid allValid allValid extPE extE extSinkUnit
    ⟨[sampleTriple], none⟩ countSink 0 1 rfl).2 5

/-- **C1** (evidence of the code bug): at the failing input — an `Active`
source whose parser yields a triple (resp. quad) whose subject `"a b"`
the IRI grammar rejects — `in_sink` panics on the `unwrap` of the failed
conversion (src/sophia/src/parser/rio_common.rs:56, 96) instead of
returning the conversion error as the pipeline's error result. -/
theorem C1_conversion_failure_panics :
    (RioSource.in_sink_triple (E := Unit) rejectSpaced allValid allValid extPE extE
        extSinkUnit
        (.parser ⟨[⟨.namedNode "a b", .namedNode "http://ex.org/p",
          .namedNode "http://ex.org/o"⟩], none⟩)
        countSink 0).2.1 = .panicked unwrapMsg
    ∧ (RioSource.in_sink_quad (E := Unit) rejectSpaced allValid allValid extPE extE
        extSinkUnit
        (.parser ⟨[⟨.namedNode "a b", .namedNode "http://ex.org/p",
          .namedNode "http://ex.org/o", none⟩], none⟩)
        countQuadSink 0).2.1 = .panicked unwrapMsg := by
  constructor
  · decide
  · decide

end Sophia
